import Mathlib

/-!
Verification of the `process-toolkit-schema` automation tool of the
typescript-toolkit repository, as a shallow embedding in Lean 4.

The embedding models the script's data model and operations:
  * the Change Ledger (`changes`, `recordChanges`, `commitChanges`) and the
    stage-then-replace `writeFile` helper from `tools/utils.ts`;
  * the Toolkit Schema data model and `verifySchema`;
  * `SchemaValidationError` and `DependencyImportError` construction;
  * `fetchToolkitSchema` from `tools/utils.ts`;
  * the dependency-directive resolution and rewriting performed by
    `updateDependencyImports` (namespace/tool/export lookup, candidate source
    file resolution, re-indentation and bundle/inline formatting);
  * the command-line option processing (`isSkipArg`, `processArg`).

Filesystem reads, directory probes and the declaration-kind extraction
grammar (a JavaScript regular expression table) are modelled as explicit
oracle parameters; filesystem side effects are modelled as an explicit
event trace.  JavaScript objects iterated with `for ... in` are modelled as
insertion-ordered association lists.
-/

/-- First-match association-list lookup, modelling JavaScript property access
`obj[key]` / the `key in obj` test on objects used as string-keyed maps. -/
def lookupKey {α : Type} (l : List (String × α)) (k : String) : Option α :=
  match l.find? (fun p => p.1 == k) with
  | some p => some p.2
  | none => none

/-- The `ROOT_PATH` constant of `tools/utils.ts`. -/
def ROOT_PATH : String := ".."

/-- The `TOOLKIT_PATH` constant of `tools/utils.ts`. -/
def TOOLKIT_PATH : String := ROOT_PATH ++ "/toolkit"

/-- The `prettyPath` helper of `tools/utils.ts` normalizes a path against the
current working directory purely for display purposes.  The working directory
is outside this embedding, so the display normalization is modelled as the
identity; no verified property inspects the normalized text. -/
def prettyPath (path : String) : String := path

/-- Whether `pat` occurs as a prefix of `l`. -/
def charsPrefix : List Char → List Char → Bool
  | [], _ => true
  | _ :: _, [] => false
  | a :: pat, b :: l => a == b && charsPrefix pat l

/-- Whether `pat` occurs as a contiguous run inside `l` (an unanchored
regular-expression literal match). -/
def charsContains (pat : List Char) : List Char → Bool
  | [] => charsPrefix pat []
  | c :: rest => charsPrefix pat (c :: rest) || charsContains pat rest

/-- Splitting a character stream on a separator character, keeping empty
pieces, as JavaScript `String.prototype.split` does with a one-character
separator. -/
def splitChars (sep : Char) : List Char → List (List Char)
  | [] => [[]]
  | c :: rest =>
    if c = sep then [] :: splitChars sep rest
    else
      match splitChars sep rest with
      | l :: ls => (c :: l) :: ls
      | [] => [[c]]

/-- JavaScript `s.split(sep)` for a one-character separator. -/
def splitOnChar (sep : Char) (s : String) : List String :=
  (splitChars sep s.data).map (fun cs => String.mk cs)

/-- JavaScript `s.startsWith(pre)`. -/
def jsStartsWith (s pre : String) : Bool := charsPrefix pre.data s.data

/-- JavaScript `s.toLowerCase()` over the ASCII arguments used by the script. -/
def jsToLower (s : String) : String := String.mk (s.data.map Char.toLower)

/-- The global `changes` map of `process-toolkit-schema`: a mapping of files to
their modified contents, in insertion order. -/
abbrev Changes : Type := List (String × String)

/-- `recordChanges(file, modifiedContents)`: throws if conflicting changes have
already been recorded for `file`, otherwise inserts the entry. -/
def recordChanges (changes : Changes) (file : String) (modifiedContents : String) :
    Except String Changes :=
  if (lookupKey changes file).isSome then
    .error ("Conflicting changes have already been recorded for " ++ prettyPath file ++ "!")
  else
    .ok (changes ++ [(file, modifiedContents)])

/-- Observable filesystem and console effects of the committer. -/
inductive FsEvent where
  /-- `writeFileSync(tempfileName, contents)`: the staged write to the temporary file. -/
  | writeTempFile (path : String) (contents : String)
  /-- `copyFileSync(tempfileName, filepath)`: replacing the real target. -/
  | copyFile (src : String) (dest : String)
  /-- `rmSync(tempfileName)`: removing the temporary file. -/
  | removeFile (path : String)
  /-- The dry-run console report of a pending path/content pair. -/
  | report (path : String) (contents : String)
deriving DecidableEq, Repr

/-- Whether an event mutates the filesystem (everything except the dry-run
console report). -/
def FsEvent.isWrite : FsEvent → Bool
  | .report _ _ => false
  | _ => true

/-- `Path.basename`, for the POSIX separator used throughout the script. -/
def basename (p : String) : String := (splitOnChar '/' p).getLastD p

/-- The effect trace of `writeFile(filepath, contents, { dryRun, tempDirPrefix })`
from `tools/utils.ts`: when not a dry run, the contents are written to a file in
the (freshly created, here parameterized) temporary directory, copied over the
real target, and the temporary file is removed; when a dry run, the pending
path/content pair is only rendered to the console. -/
def writeFile (filepath : String) (contents : String) (dryRun : Bool)
    (tempDir : String) : List FsEvent :=
  if !dryRun then
    let tempfileName := tempDir ++ "/" ++ basename filepath
    [.writeTempFile tempfileName contents,
     .copyFile tempfileName filepath,
     .removeFile tempfileName]
  else
    [.report filepath contents]

/-- `commitChanges(dryRun)`: writes every recorded file via `writeFile` and, when
not a dry run, empties the `changes` map afterward.  Returns the resulting
`changes` map and the filesystem event trace. -/
def commitChanges (changes : Changes) (dryRun : Bool) (tempDir : String) :
    Changes × List FsEvent :=
  ((if !dryRun then ([] : Changes) else changes),
   changes.flatMap (fun p => writeFile p.1 p.2 dryRun tempDir))

/-- The `ToolkitExportType` enumeration of `tools/utils.ts`. -/
inductive ToolkitExportType where
  | TYPE
  | INTERFACE
  | CLASS
  | FUNCTION
  | CONSTANT
  | VARIABLE
  | GLOBAL
deriving DecidableEq, Repr

/-- The string value of a `ToolkitExportType` enum member. -/
def ToolkitExportType.val : ToolkitExportType → String
  | .TYPE => "type"
  | .INTERFACE => "interface"
  | .CLASS => "class"
  | .FUNCTION => "function"
  | .CONSTANT => "constant"
  | .VARIABLE => "variable"
  | .GLOBAL => "global"

/-- An Export entry of the Toolkit Schema (its optional descriptions play no
role in any verified operation and are omitted). -/
structure ToolkitExport where
  type : ToolkitExportType
deriving DecidableEq, Repr

/-- A Tool entry of the Toolkit Schema.  `exports` and `tools` objects are
modelled as insertion-ordered association lists; the optional `dependencies`
array is kept optional as in the TypeScript interface. -/
structure ToolkitTool where
  exports : List (String × ToolkitExport)
  dependencies : Option (List String)
deriving DecidableEq, Repr

/-- A Namespace entry of the Toolkit Schema; `tools` is optional in the
`ToolkitSchema` interface of `tools/utils.ts`. -/
structure ToolkitNamespace where
  tools : Option (List (String × ToolkitTool))
deriving DecidableEq, Repr

/-- The Toolkit Schema: namespaces keyed by name, in insertion order. -/
abbrev ToolkitSchema : Type := List (String × ToolkitNamespace)

/-- The `SchemaValidationError.ValidationDetails` / `ErrorOptions` interface:
all fields are optional. -/
structure ValidationDetails where
  namespaceName : Option String := none
  tool : Option String := none
  schemaSyntaxError : Option Bool := none
  directoryValidationError : Option Bool := none
deriving DecidableEq, Repr

/-- A constructed `SchemaValidationError` value: the final message together
with the public `ValidationDetails` fields set by the constructor. -/
structure SchemaValidationError where
  message : String
  namespaceName : Option String
  tool : Option String
  schemaSyntaxError : Option Bool
  directoryValidationError : Option Bool
deriving DecidableEq, Repr

/-- The `SchemaValidationError` constructor: prefixes the message and, when
exactly one of `schemaSyntaxError` / `directoryValidationError` is supplied,
sets the omitted flag to the opposite value.  A `none` message or an empty
message string is falsy in JavaScript and yields the generic message. -/
def SchemaValidationError.construct (message : Option String)
    (options : Option ValidationDetails) : SchemaValidationError :=
  let msg : String :=
    match message with
    | some m =>
      if m = "" then "The TypeScript Toolkit Schema Failed Validation."
      else "The TypeScript Toolkit Schema Failed Validation: " ++ m
    | none => "The TypeScript Toolkit Schema Failed Validation."
  match options with
  | none =>
    { message := msg, namespaceName := none, tool := none,
      schemaSyntaxError := none, directoryValidationError := none }
  | some o =>
    let flags : Option Bool × Option Bool :=
      match o.schemaSyntaxError, o.directoryValidationError with
      | some s, some d => (some s, some d)
      | some s, none => (some s, some (!s))
      | none, some d => (some (!d), some d)
      | none, none => (none, none)
    { message := msg, namespaceName := o.namespaceName, tool := o.tool,
      schemaSyntaxError := flags.1, directoryValidationError := flags.2 }

/-- A read-only directory/file existence oracle, modelling `existsSync`. -/
abbrev DirOracle : Type := String → Bool

/-- Validation of a single Tool Dependency string inside `verifySchema`:
the dependency is split on `/` (limited to two segments, as in
`dependency.split('/', 2)`); an absent second segment is coerced to the
property key `"undefined"` exactly as the JavaScript `in` operator would. -/
def checkDependency (schema : ToolkitSchema) (namespaceName toolName : String)
    (dependency : String) : Except SchemaValidationError Unit :=
  let segments := (splitOnChar '/' dependency).take 2
  let seg0 := segments.headD ""
  let seg1 := (segments.get? 1).getD "undefined"
  let fullToolName := namespaceName ++ "/" ++ toolName
  match lookupKey schema seg0 with
  | none =>
    .error (SchemaValidationError.construct
      (some s!"Unknown Namespace '{seg0}' specified as a Dependency for '{fullToolName}'.")
      (some { namespaceName := some namespaceName, tool := some toolName,
              schemaSyntaxError := some true }))
  | some ns =>
    if (lookupKey (ns.tools.getD []) seg1).isSome then
      .ok ()
    else
      .error (SchemaValidationError.construct
        (some s!"Unknown Tool '{seg1}' in Namespace '{seg0}' specified as a Dependency for '{fullToolName}'.")
        (some { namespaceName := some namespaceName, tool := some toolName,
                schemaSyntaxError := some true }))

/-- The `tool.dependencies.forEach(...)` validation loop: checks the
dependency strings in order and propagates the first error. -/
def checkToolDependencies (schema : ToolkitSchema) (namespaceName toolName : String) :
    List String → Except SchemaValidationError Unit
  | [] => .ok ()
  | d :: rest =>
    match checkDependency schema namespaceName toolName d with
    | .error e => .error e
    | .ok _ => checkToolDependencies schema namespaceName toolName rest

/-- Validation of a single Tool in `verifySchema`: its dependency strings are
checked first, then the tool's own directory is probed.  Returns the outcome
together with the list of directory paths probed via `existsSync`. -/
def verifyTool (dirExists : DirOracle) (schema : ToolkitSchema)
    (namespaceName toolName : String) (tool : ToolkitTool) :
    Except SchemaValidationError Unit × List String :=
  match checkToolDependencies schema namespaceName toolName (tool.dependencies.getD []) with
  | .error e => (.error e, [])
  | .ok _ =>
    let toolDir := TOOLKIT_PATH ++ "/" ++ namespaceName ++ "/" ++ toolName
    if dirExists toolDir then
      (.ok (), [toolDir])
    else
      (.error (SchemaValidationError.construct
        (some s!"Missing Tool '{toolName}' in Namespace '{namespaceName}' in the /toolkit Directory.")
        (some { namespaceName := some namespaceName, tool := some toolName,
                directoryValidationError := some true })), [toolDir])

/-- Fail-fast sequencing of checks: the first error aborts, and the probe
traces of the checks performed so far are concatenated. -/
def seqChecks : List (Except SchemaValidationError Unit × List String) →
    Except SchemaValidationError Unit × List String
  | [] => (.ok (), [])
  | (r, ps) :: rest =>
    match r with
    | .error e => (.error e, ps)
    | .ok _ =>
      let (r2, ps2) := seqChecks rest
      (r2, ps ++ ps2)

/-- Validation of a single Namespace in `verifySchema`: the namespace
directory is probed first, then every tool is checked in order. -/
def verifyNamespace (dirExists : DirOracle) (schema : ToolkitSchema)
    (namespaceName : String) (ns : ToolkitNamespace) :
    Except SchemaValidationError Unit × List String :=
  let nsDir := TOOLKIT_PATH ++ "/" ++ namespaceName
  if dirExists nsDir then
    let (r, ps) := seqChecks ((ns.tools.getD []).map
      (fun p => verifyTool dirExists schema namespaceName p.1 p.2))
    (r, nsDir :: ps)
  else
    (.error (SchemaValidationError.construct
      (some s!"Missing Namespace '{namespaceName}' in the /toolkit Directory.")
      (some { namespaceName := some namespaceName,
              directoryValidationError := some true })), [nsDir])

/-- The `verifySchema` script action: validates every namespace in order,
failing fast on the first problem.  The result is paired with the list of
directory paths probed via `existsSync` during the run. -/
def verifySchema (dirExists : DirOracle) (schema : ToolkitSchema) :
    Except SchemaValidationError Unit × List String :=
  seqChecks (schema.map (fun p => verifyNamespace dirExists schema p.1 p.2))

/-- `fetchToolkitSchema()` from `tools/utils.ts`.  The outcome of
`readJsonFile(TOOLKIT_SCHEMA_PATH)` — either a thrown error (missing file or
malformed JSON) or the parsed top-level object — is an explicit argument; on
success every top-level key starting with `$` is deleted. -/
def fetchToolkitSchema {α : Type} (doc : Except String (List (String × α))) :
    Except String (List (String × α)) :=
  match doc with
  | .error msg =>
    .error ("Failed to retrieve the TypeScript Toolkit Schema: " ++ msg)
  | .ok schema =>
    .ok (schema.filter (fun p => !(jsStartsWith p.1 "$")))

/-- The `DependencyImportMethod` enumeration of `process-toolkit-schema`. -/
inductive DependencyImportMethod where
  | BUNDLED
  | INLINED
deriving DecidableEq, Repr

/-- The string value of a `DependencyImportMethod` enum member. -/
def DependencyImportMethod.val : DependencyImportMethod → String
  | .BUNDLED => "Bundled"
  | .INLINED => "Inlined"

/-- The two source dialects iterated by `updateDependencyImports`
(`['ts', 'js'] as const`). -/
inductive ScriptType where
  | ts
  | js
deriving DecidableEq, Repr

/-- The string value (also the file extension) of a script dialect. -/
def ScriptType.ext : ScriptType → String
  | .ts => "ts"
  | .js => "js"

/-- The tag captured by the directive regular expression
(`@bundleDependency` vs `@inlineDependency`). -/
inductive DepTag where
  | bundle
  | inlineTag
deriving DecidableEq, Repr

/-- `depType`: the import method corresponding to a directive tag. -/
def DepTag.depType : DepTag → DependencyImportMethod
  | .bundle => .BUNDLED
  | .inlineTag => .INLINED

/-- The `DependencyImportError.ErrorOptions` / `ImportDetails` fields. -/
structure ImportDetails where
  fileName : Option String := none
  filePath : Option String := none
  importMethod : Option DependencyImportMethod := none
  dependency : Option String := none
  dependencyNamespace : Option String := none
  dependencyTool : Option String := none
  dependencyExport : Option String := none
deriving DecidableEq, Repr

/-- A constructed `DependencyImportError` value: the final message together
with the public `ImportDetails` fields set by the constructor. -/
structure DependencyImportError where
  message : String
  fileName : Option String
  filePath : Option String
  importMethod : Option DependencyImportMethod
  dependency : Option String
  dependencyNamespace : Option String
  dependencyTool : Option String
  dependencyExport : Option String
deriving DecidableEq, Repr

/-- JavaScript truthiness of an optional string (absent and empty are falsy). -/
def strTruthy : Option String → Bool
  | none => false
  | some s => s ≠ ""

/-- The `DependencyImportError` constructor: when no message is supplied a
default message is assembled from the options; `filePath` is normalized with
`prettyPath` before being stored. -/
def DependencyImportError.construct (message : Option String)
    (options : ImportDetails) : DependencyImportError :=
  let msg : String :=
    match message with
    | some m => m
    | none =>
      "Failed to import"
        ++ (match options.importMethod with
            | some m => " " ++ m.val
            | none => "")
        ++ " TypeScript Toolkit Dependency"
        ++ (if (strTruthy options.fileName || strTruthy options.filePath)
               && strTruthy options.dependency then
              "'" ++ options.dependency.getD "" ++ "' in file "
                ++ (options.fileName.getD (options.filePath.getD "")) ++ "."
            else ".")
  { message := msg,
    fileName := options.fileName,
    filePath := options.filePath.map prettyPath,
    importMethod := options.importMethod,
    dependency := options.dependency,
    dependencyNamespace := options.dependencyNamespace,
    dependencyTool := options.dependencyTool,
    dependencyExport := options.dependencyExport }

/-- One match of the `DEPENDENCY_IMPORT_REGEX` inside a dependent code
snippet: the captured leading indentation, the `bundle`/`inline` tag, and the
dotted dependency path. -/
structure DirectiveMatch where
  indent : String
  depTag : DepTag
  dependency : String
deriving DecidableEq, Repr

/-- The ambient context of one `updateDependencyImports` file pass: the schema,
the `existsSync` oracle, the declaration-kind extraction grammar
(`codeRegex` construction plus `String.match`, abstracted as a function of the
export type, dialect, export name and source text), the `readFile` oracle, the
dialect, and the name and `/src` path of the file being rewritten. -/
structure ImportCtx where
  schema : ToolkitSchema
  fsExists : DirOracle
  extract : ToolkitExportType → ScriptType → String → String → Option String
  readF : String → String
  scriptType : ScriptType
  fileName : String
  srcFilePath : String

/-- Insertion of the captured indentation at the start of every non-empty line
(the JavaScript `replaceAll(/^(?!$)/gm, indent)`), character by character.
The Boolean state records whether the scan is at a line start. -/
def indentAux (ind : List Char) : Bool → List Char → List Char
  | _, [] => []
  | true, c :: rest =>
    if c = '\n' then c :: indentAux ind true rest
    else ind ++ (c :: indentAux ind false rest)
  | false, c :: rest =>
    if c = '\n' then c :: indentAux ind true rest
    else c :: indentAux ind false rest

/-- `text.replaceAll(/^(?!$)/gm, indent)`: re-indentation of extracted
dependency text to the directive's captured indentation. -/
def indentNonEmptyLines (ind : String) (s : String) : String :=
  String.mk (indentAux ind.data true s.data)

/-- The lines of a string (separator `'\n'`), as an independent specification
device for the re-indentation behavior. -/
def linesOf (s : String) : List String :=
  (splitChars '\n' s.data).map (fun cs => String.mk cs)

/-- Resolution of the Toolkit Dependency Code Snippet File
(`depToolFilePath` in `updateDependencyImports`): if the dependency tool's
dialect directory exists, the candidates — the same-named file, the
mode-named aggregate file, and the dialect `index` entry file — are probed in
order and the first existing one wins; otherwise a `DependencyImportError`
is thrown. -/
def resolveDepToolFilePath (fsExists : DirOracle) (scriptType : ScriptType)
    (fileName : String) (depType : DependencyImportMethod)
    (seg0 seg1 seg2 : String) (baseErrorOptions : ImportDetails) :
    Except DependencyImportError String :=
  let depToolDirPath := TOOLKIT_PATH ++ "/" ++ seg0 ++ "/" ++ seg1 ++ "/" ++ scriptType.ext
  if fsExists depToolDirPath then
    let filesToCheck : List String :=
      [fileName,
       jsToLower depType.val ++ "-deps." ++ scriptType.ext,
       "index." ++ scriptType.ext]
    match (filesToCheck.map (fun f => depToolDirPath ++ "/" ++ f)).find? fsExists with
    | some f => .ok f
    | none =>
      .error (DependencyImportError.construct
        (some s!"Failed to import '{seg2}' from Tool '{seg1}' in Namespace '{seg0}' as a {depType.val} Dependency in {fileName}: A suitable source code file could not be found.")
        { baseErrorOptions with
            dependencyNamespace := some seg0,
            dependencyTool := some seg1,
            dependencyExport := some seg2 })
  else
    .error (DependencyImportError.construct
      (some s!"Failed to import '{seg2}' from Tool '{seg1}' in Namespace '{seg0}' as a {depType.val} Dependency in {fileName}: {depToolDirPath} could not be found.")
      { baseErrorOptions with
          dependencyNamespace := some seg0,
          dependencyTool := some seg1,
          dependencyExport := some seg2 })

/-- Extraction of the dependency declaration from the resolved source file and
assembly of the replacement text: `bundle` mode prepends a blank separator
line before every match after the first, `inline` mode prepends the fixed
marker comment at the captured indentation; the extracted text is re-indented
and `firstMatch` is cleared.  A failed extraction throws. -/
def extractAndFormat (ctx : ImportCtx) (firstMatch : Bool) (indent : String)
    (depTag : DepTag) (exportType : ToolkitExportType) (seg0 seg1 seg2 : String)
    (baseErrorOptions : ImportDetails) (depToolFilePath : String) :
    Except DependencyImportError (String × Bool) :=
  let depType := depTag.depType
  let depToolFileContents := ctx.readF depToolFilePath
  match ctx.extract exportType ctx.scriptType seg2 depToolFileContents with
  | some extracted =>
    let replacementString :=
      (if depType = DependencyImportMethod.BUNDLED then
        (if !firstMatch then "\n" else "")
      else
        indent ++ "// Inlined TypeScript Toolkit Dependency\n")
      ++ indentNonEmptyLines indent extracted
    .ok (replacementString, false)
  | none =>
    .error (DependencyImportError.construct
      (some s!"Cannot import '{seg2}' from Tool '{seg1}' in Namespace '{seg0}' as a {depType.val} Dependency in {ctx.fileName}: Failed to find '{seg2}' in source code file {depToolFilePath}.")
      { baseErrorOptions with
          dependencyNamespace := some seg0,
          dependencyTool := some seg1,
          dependencyExport := some seg2 })

/-- The replacement callback of
`fileContents.replaceAll(DEPENDENCY_IMPORT_REGEX, ...)` for one directive
match: validates the dotted path against the schema, rejects `global`-kind
exports, resolves the dependency source file and produces the replacement
text together with the updated `firstMatch` flag. -/
def replaceDirective (ctx : ImportCtx) (firstMatch : Bool) (m : DirectiveMatch) :
    Except DependencyImportError (String × Bool) :=
  let depType := m.depTag.depType
  let baseErrorOptions : ImportDetails :=
    { fileName := some ctx.fileName,
      filePath := some ctx.srcFilePath,
      dependency := some m.dependency,
      importMethod := some depType }
  match splitOnChar '.' m.dependency with
  | [seg0, seg1, seg2] =>
    match lookupKey ctx.schema seg0 with
    | none =>
      .error (DependencyImportError.construct
        (some s!"Unknown Namespace '{seg0}' specified as a {depType.val} Dependency in {ctx.fileName}.")
        { baseErrorOptions with dependencyNamespace := some seg0 })
    | some depNamespace =>
      match lookupKey (depNamespace.tools.getD []) seg1 with
      | none =>
        .error (DependencyImportError.construct
          (some s!"Unknown Tool '{seg1}' in Namespace '{seg0}' specified as a {depType.val} Dependency in {ctx.fileName}.")
          { baseErrorOptions with
              dependencyNamespace := some seg0,
              dependencyTool := some seg1 })
      | some depTool =>
        match lookupKey depTool.exports seg2 with
        | none =>
          .error (DependencyImportError.construct
            (some s!"Unknown Export '{seg2}' from Tool '{seg1}' in Namespace '{seg0}' specified as a {depType.val} Dependency in {ctx.fileName}.")
            { baseErrorOptions with
                dependencyNamespace := some seg0,
                dependencyTool := some seg1,
                dependencyExport := some seg2 })
        | some depExport =>
          if depExport.type = ToolkitExportType.GLOBAL then
            .error (DependencyImportError.construct
              (some s!"Cannot import '{seg2}' from Tool '{seg1}' in Namespace '{seg0}' as a {depType.val} Dependency in {ctx.fileName}: '{seg2}' is a global that should not need to be imported.")
              { baseErrorOptions with
                  dependencyNamespace := some seg0,
                  dependencyTool := some seg1,
                  dependencyExport := some seg2 })
          else
            match resolveDepToolFilePath ctx.fsExists ctx.scriptType ctx.fileName
                depType seg0 seg1 seg2 baseErrorOptions with
            | .error e => .error e
            | .ok depToolFilePath =>
              extractAndFormat ctx firstMatch m.indent m.depTag depExport.type
                seg0 seg1 seg2 baseErrorOptions depToolFilePath
  | _ =>
    .error (DependencyImportError.construct
      (some s!"An invalid {depType.val} Dependency was specified in {ctx.fileName}: {m.dependency}")
      baseErrorOptions)

/-- The decomposition of a dependent source file produced by scanning it with
`DEPENDENCY_IMPORT_REGEX`: literal text segments alternating with directive
matches; concatenating the pieces in order reproduces the file contents. -/
inductive ScanItem where
  | text (s : String)
  | directive (m : DirectiveMatch)
deriving DecidableEq, Repr

/-- Whether a scan item is a literal text segment (no directive matched there). -/
def ScanItem.isText : ScanItem → Bool
  | .text _ => true
  | .directive _ => false

/-- The concatenation of the literal text segments of a scan, which equals the
original file contents when the scan found no directive. -/
def concatTexts : List ScanItem → String
  | [] => ""
  | .text s :: rest => s ++ concatTexts rest
  | .directive _ :: rest => concatTexts rest

/-- `fileContents.replaceAll(DEPENDENCY_IMPORT_REGEX, ...)` over the scanned
decomposition of one file: literal segments are copied, each directive match
is replaced via `replaceDirective`, and the `firstMatch` flag is threaded
left to right. -/
def rewriteSegments (ctx : ImportCtx) : List ScanItem → Bool →
    Except DependencyImportError String
  | [], _ => .ok ""
  | .text s :: rest, firstMatch =>
    match rewriteSegments ctx rest firstMatch with
    | .ok r => .ok (s ++ r)
    | .error e => .error e
  | .directive m :: rest, firstMatch =>
    match replaceDirective ctx firstMatch m with
    | .error e => .error e
    | .ok (repl, firstMatch2) =>
      match rewriteSegments ctx rest firstMatch2 with
      | .ok r => .ok (repl ++ r)
      | .error e => .error e

/-- Processing of one regular file found in the tool's `/src` dialect
directory: the contents are rewritten (with `firstMatch` initially `true`)
and the result is recorded into the Change Ledger under the destination path
`scriptsPath/fileName` — unconditionally, whether or not any directive
matched. -/
def processSrcFile (ctx : ImportCtx) (changes : Changes)
    (scriptsPath : String) (items : List ScanItem) :
    Except (DependencyImportError ⊕ String) Changes :=
  let destFilePath := scriptsPath ++ "/" ++ ctx.fileName
  match rewriteSegments ctx items true with
  | .error e => .error (.inl e)
  | .ok fileContents =>
    match recordChanges changes destFilePath fileContents with
    | .error msg => .error (.inr msg)
    | .ok ch => .ok ch

/-- The Script Options determined from the command line. -/
structure ScriptOptions where
  dryRun : Bool
  verifySchema : Bool
  updatePackageExports : Bool
  updateIssueTemplates : Bool
  updateReadmeFiles : Bool
  updateDependencyImports : Bool
deriving DecidableEq, Repr

/-- The initial option set: every action enabled, no dry run. -/
def defaultScriptOptions : ScriptOptions :=
  { dryRun := false, verifySchema := true, updatePackageExports := true,
    updateIssueTemplates := true, updateReadmeFiles := true,
    updateDependencyImports := true }

/-- Whether a character stream contains a `-` immediately followed by a
lowercase letter (the first alternative of the `isSkipArg` regular
expression, `\-[a-z]`, unanchored). -/
def hasDashLower : List Char → Bool
  | '-' :: c :: rest => c.isLower || hasDashLower (c :: rest)
  | _ :: rest => hasDashLower rest
  | [] => false

/-- `isSkipArg(arg)`: the test `/(?:\-[a-z])|(?:\-{2}skip-)/.test(arg)`. -/
def isSkipArg (arg : String) : Bool :=
  hasDashLower arg.data || charsContains "--skip-".data arg.data

/-- The `switch (lcArg)` body of `processArg`: applies a single recognized
argument to the options and reports whether the argument was recognized. -/
def applyArg (options : ScriptOptions) (arg : String) : ScriptOptions × Bool :=
  let lcArg := jsToLower arg
  if lcArg = "--dry-run" then
    ({ options with dryRun := true }, true)
  else if lcArg = "-v" || lcArg = "--verify-schema"
      || lcArg = "--skip-schema-verification" then
    ({ options with verifySchema := (arg = "-v" || lcArg = "--verify-schema") }, true)
  else if lcArg = "-e" || lcArg = "--update-package-exports"
      || lcArg = "--skip-package-exports" then
    ({ options with updatePackageExports :=
        (arg = "-e" || lcArg = "--update-package-exports") }, true)
  else if lcArg = "-i" || lcArg = "--update-issue-templates"
      || lcArg = "--skip-issue-templates" then
    ({ options with updateIssueTemplates :=
        (arg = "-i" || lcArg = "--update-issue-templates") }, true)
  else if lcArg = "-r" || lcArg = "--update-readme-files"
      || lcArg = "--skip-readme-files" then
    ({ options with updateReadmeFiles :=
        (arg = "-r" || lcArg = "--update-readme-files") }, true)
  else if lcArg = "-d" || lcArg = "--update-dependency-imports"
      || lcArg = "--skip-dependency-imports" then
    ({ options with updateDependencyImports :=
        (arg = "-d" || lcArg = "--update-dependency-imports") }, true)
  else
    (options, false)

/-- Setting all five action options to `false` (the reset performed when the
Determinant Argument is classified as a Skip Argument). -/
def resetActions (o : ScriptOptions) : ScriptOptions :=
  { o with
      verifySchema := false
      updatePackageExports := false
      updateIssueTemplates := false
      updateReadmeFiles := false
      updateDependencyImports := false }

/-- The argument-processing state: the options so far and whether the
Determinant Argument has been processed. -/
structure ArgState where
  options : ScriptOptions
  processedDeterminantArg : Bool
deriving DecidableEq, Repr

/-- `processArg(arg)`: applies the argument; if it is the first valid
action-selecting argument and `isSkipArg` classifies it as a Skip Argument,
all action options are reset to `false` and the argument is re-processed
against the reset options. -/
def processArg (st : ArgState) (arg : String) : ArgState :=
  let r := applyArg st.options arg
  if r.2 then
    if !st.processedDeterminantArg && jsToLower arg ≠ "--dry-run" then
      if isSkipArg arg then
        { options := (applyArg (resetActions r.1) arg).1,
          processedDeterminantArg := true }
      else
        { options := r.1, processedDeterminantArg := true }
    else
      { options := r.1, processedDeterminantArg := st.processedDeterminantArg }
  else
    { options := r.1, processedDeterminantArg := st.processedDeterminantArg }

/-- The program options determined from the command-line arguments
(`programArgs.forEach(processArg)` starting from the defaults). -/
def determineOptions (programArgs : List String) : ScriptOptions :=
  (programArgs.foldl processArg
    { options := defaultScriptOptions, processedDeterminantArg := false }).options

/-- Lookup into the payload of a successful `fetchToolkitSchema` result. -/
def okLookup {α : Type} (r : Except String (List (String × α))) (k : String) : Option α :=
  match r with
  | .ok l => lookupKey l k
  | .error _ => none

/-- Unfolding `lookupKey` over a cons cell. -/
theorem lookupKey_cons {α : Type} (k' : String) (v : α) (l : List (String × α))
    (k : String) :
    lookupKey ((k', v) :: l) k = if (k' == k) = true then some v else lookupKey l k := by
  by_cases h : (k' == k) = true
  · simp [lookupKey, List.find?, h]
  · rw [Bool.not_eq_true] at h
    simp [lookupKey, List.find?, h]

/-- A key absent from the front list is looked up in the back list. -/
theorem lookupKey_append_right {α : Type} (l1 l2 : List (String × α)) (k : String)
    (h : lookupKey l1 k = none) :
    lookupKey (l1 ++ l2) k = lookupKey l2 k := by
  induction l1 with
  | nil => rfl
  | cons p rest ih =>
    rw [lookupKey_cons] at h
    rw [List.cons_append, lookupKey_cons]
    by_cases hk : (p.1 == k) = true
    · simp [hk] at h
    · simp only [hk, if_neg, if_false] at h ⊢
      exact ih h

/-- Filtering an association list by a predicate on the key commutes with a
first-match lookup. -/
theorem lookupKey_filter_key {α : Type} (q : String → Bool) (m : List (String × α))
    (k : String) :
    lookupKey (m.filter (fun p => q p.1)) k = if q k then lookupKey m k else none := by
  induction m with
  | nil => simp [lookupKey]
  | cons p rest ih =>
    obtain ⟨pk, pv⟩ := p
    by_cases hk : (pk == k) = true
    · have hpk : pk = k := eq_of_beq hk
      by_cases hq : q pk = true
      · have hqk : q k = true := hpk ▸ hq
        simp [List.filter_cons, hq, lookupKey_cons, hk, hqk]
      · have hq2 : q pk = false := by simpa using hq
        have hqk : q k = false := hpk ▸ hq2
        simp [List.filter_cons, hq2, lookupKey_cons, hk, hqk, ih]
    · have hk2 : (pk == k) = false := by simpa using hk
      by_cases hq : q pk = true
      · simp [List.filter_cons, hq, lookupKey_cons, hk2, ih]
      · have hq2 : q pk = false := by simpa using hq
        simp [List.filter_cons, hq2, lookupKey_cons, hk2, ih]

/-- Claim C1: recording a change for a destination path that already has a recorded
change fails with the conflicting-changes error, without merging or
overwriting: the ledger still maps the path to the first recorded contents,
and no filesystem write is involved (`recordChanges` produces no `FsEvent`s;
writes happen only in `commitChanges`). -/
theorem recordChanges_conflict_fails (ch ch' : Changes) (file c1 c2 : String)
    (h : recordChanges ch file c1 = .ok ch') :
    recordChanges ch' file c2 =
      .error ("Conflicting changes have already been recorded for " ++ prettyPath file ++ "!")
    ∧ lookupKey ch' file = some c1 := by
  unfold recordChanges at h
  by_cases hl : (lookupKey ch file).isSome
  · rw [if_pos hl] at h
    exact absurd h (by simp)
  · rw [if_neg hl] at h
    have hch : ch' = ch ++ [(file, c1)] := by
      cases h
      rfl
    have hnone : lookupKey ch file = none := by
      cases hx : lookupKey ch file
      · rfl
      · rw [hx] at hl
        simp at hl
    have hlk : lookupKey ch' file = some c1 := by
      rw [hch, lookupKey_append_right ch _ file hnone, lookupKey_cons]
      simp
    refine ⟨?_, hlk⟩
    unfold recordChanges
    rw [if_pos (by rw [hlk]; rfl)]

/-- Claim C1 witness: a concrete conflicting second record. -/
theorem recordChanges_conflict_fails_witness :
    recordChanges [("pkg.json", "A")] "pkg.json" "B" =
      .error ("Conflicting changes have already been recorded for " ++ prettyPath "pkg.json" ++ "!")
    ∧ lookupKey [("pkg.json", "A")] "pkg.json" = some "A" :=
  recordChanges_conflict_fails [] [("pkg.json", "A")] "pkg.json" "A" "B" rfl

/-- Claim C9: committing in preview mode writes nothing — every pending path/content
pair is only rendered to the console — and leaves the changes map intact;
committing normally emits the stage-then-replace event sequence for every
recorded file, in order, and empties the changes map. -/
theorem commitChanges_dry_run_and_commit (ch : Changes) (tempDir : String) :
    (commitChanges ch true tempDir).1 = ch
    ∧ (commitChanges ch true tempDir).2 = ch.map (fun p => FsEvent.report p.1 p.2)
    ∧ ((commitChanges ch true tempDir).2.all (fun e => !e.isWrite)) = true
    ∧ (commitChanges ch false tempDir).1 = []
    ∧ (commitChanges ch false tempDir).2 = ch.flatMap (fun p =>
        [FsEvent.writeTempFile (tempDir ++ "/" ++ basename p.1) p.2,
         FsEvent.copyFile (tempDir ++ "/" ++ basename p.1) p.1,
         FsEvent.removeFile (tempDir ++ "/" ++ basename p.1)]) := by
  refine ⟨rfl, ?_, ?_, rfl, ?_⟩
  · show ch.flatMap (fun p => writeFile p.1 p.2 true tempDir) = _
    induction ch with
    | nil => rfl
    | cons p rest ih => simpa [writeFile] using ih
  · show (ch.flatMap (fun p => writeFile p.1 p.2 true tempDir)).all _ = true
    induction ch with
    | nil => rfl
    | cons p rest ih =>
      simp only [List.flatMap_cons, writeFile, List.all_append]
      simp [FsEvent.isWrite, ih]
  · show ch.flatMap (fun p => writeFile p.1 p.2 false tempDir) = _
    induction ch with
    | nil => rfl
    | cons p rest ih =>
      simp only [List.flatMap_cons, writeFile, List.flatMap_cons]
      simp [ih]

/-- Claim C10: a `SchemaValidationError` constructed with exactly one of the two
classification flags has both flags defined and complementary: the omitted
flag is the negation of the supplied one. -/
theorem schemaValidationError_flags_complementary (message : Option String)
    (o : ValidationDetails)
    (h : o.schemaSyntaxError.isSome ≠ o.directoryValidationError.isSome) :
    (SchemaValidationError.construct message (some o)).schemaSyntaxError.isSome = true
    ∧ (SchemaValidationError.construct message (some o)).directoryValidationError.isSome = true
    ∧ (SchemaValidationError.construct message (some o)).schemaSyntaxError
        = (SchemaValidationError.construct message (some o)).directoryValidationError.map
            (fun b => !b) := by
  rcases hs : o.schemaSyntaxError with _ | s <;>
    rcases hd : o.directoryValidationError with _ | d
  · rw [hs, hd] at h
    simp at h
  · simp [SchemaValidationError.construct, hs, hd]
  · simp [SchemaValidationError.construct, hs, hd]
  · rw [hs, hd] at h
    simp at h

/-- Claim C10 witness: supplying only `schemaSyntaxError := true` yields
`directoryValidationError = some false`. -/
theorem schemaValidationError_flags_complementary_witness :
    (SchemaValidationError.construct (some "m")
        (some { schemaSyntaxError := some true })).schemaSyntaxError.isSome = true
    ∧ (SchemaValidationError.construct (some "m")
        (some { schemaSyntaxError := some true })).directoryValidationError.isSome = true
    ∧ (SchemaValidationError.construct (some "m")
        (some { schemaSyntaxError := some true })).schemaSyntaxError
        = (SchemaValidationError.construct (some "m")
            (some { schemaSyntaxError := some true })).directoryValidationError.map (fun b => !b) :=
  schemaValidationError_flags_complementary (some "m")
    { schemaSyntaxError := some true } (by decide)

/-- Claim C8: `fetchToolkitSchema` fails (with the wrapping error message) exactly
when reading or parsing the backing document failed, and otherwise returns the
parsed object with every top-level key beginning with `$` removed and every
other top-level key bound to its unchanged value. -/
theorem fetchToolkitSchema_spec {α : Type} (doc : Except String (List (String × α)))
    (msg : String) (m : List (String × α)) (k : String) :
    (doc = .error msg → fetchToolkitSchema doc
        = .error ("Failed to retrieve the TypeScript Toolkit Schema: " ++ msg))
    ∧ (doc = .ok m → (fetchToolkitSchema doc).isOk = true)
    ∧ (doc = .ok m → okLookup (fetchToolkitSchema doc) k
        = if jsStartsWith k "$" then none else lookupKey m k) := by
  refine ⟨fun h => ?_, fun h => ?_, fun h => ?_⟩
  · rw [h]
    rfl
  · rw [h]
    rfl
  · rw [h]
    show lookupKey (m.filter (fun p => !(jsStartsWith p.1 "$"))) k = _
    rw [lookupKey_filter_key (fun s => !(jsStartsWith s "$")) m k]
    by_cases hs : jsStartsWith k "$" = true
    · simp [hs]
    · have hs2 : jsStartsWith k "$" = false := by simpa using hs
      simp [hs2]

/-- Claim C8 witness: a failed read is wrapped, a reserved `$`-prefixed key is
stripped, and an ordinary key keeps its value. -/
theorem fetchToolkitSchema_spec_witness :
    fetchToolkitSchema (Except.error "boom" : Except String (List (String × Nat)))
      = .error ("Failed to retrieve the TypeScript Toolkit Schema: " ++ "boom")
    ∧ okLookup (fetchToolkitSchema
        (Except.ok [("$schema", (1 : Nat)), ("arrays", 2)])) "$schema" = none
    ∧ okLookup (fetchToolkitSchema
        (Except.ok [("$schema", (1 : Nat)), ("arrays", 2)])) "arrays" = some 2 := by
  refine ⟨(fetchToolkitSchema_spec (Except.error "boom") "boom" [] "x").1 rfl, ?_, ?_⟩
  · have h := (fetchToolkitSchema_spec (Except.ok [("$schema", (1 : Nat)), ("arrays", 2)])
      "" [("$schema", 1), ("arrays", 2)] "$schema").2.2 rfl
    rw [h]
    decide
  · have h := (fetchToolkitSchema_spec (Except.ok [("$schema", (1 : Nat)), ("arrays", 2)])
      "" [("$schema", 1), ("arrays", 2)] "arrays").2.2 rfl
    rw [h]
    decide

/-- Claim C7 (code-bug evidence): `isSkipArg` classifies the lowercase *enable*
switch `-v` as a Skip Argument (its regular expression matches any dash
followed by a lowercase letter) and fails to classify the uppercase *skip*
switch `-V` as one, contradicting its own documentation; consequently an
enable selector as the first action argument disables all other actions,
while the `-V` skip selector leaves the default-enabled set uninverted. -/
theorem isSkipArg_enable_switch_misclassified :
    isSkipArg "-v" = true
    ∧ isSkipArg "-V" = false
    ∧ isSkipArg "--verify-schema" = true
    ∧ determineOptions ["-v"]
        = { dryRun := false, verifySchema := true, updatePackageExports := false,
            updateIssueTemplates := false, updateReadmeFiles := false,
            updateDependencyImports := false }
    ∧ determineOptions ["-V"]
        = { dryRun := false, verifySchema := false, updatePackageExports := true,
            updateIssueTemplates := true, updateReadmeFiles := true,
            updateDependencyImports := true } := by
  refine ⟨rfl, rfl, rfl, by decide, by decide⟩

/-- A scan with only literal text segments is rewritten to their
concatenation: `replaceAll` with no match returns the contents unchanged. -/
theorem rewriteSegments_all_text (ctx : ImportCtx) (items : List ScanItem)
    (fm : Bool) (h : items.all ScanItem.isText = true) :
    rewriteSegments ctx items fm = .ok (concatTexts items) := by
  induction items generalizing fm with
  | nil => rfl
  | cons it rest ih =>
    cases it with
    | text s =>
      rw [List.all_cons] at h
      have h2 : rest.all ScanItem.isText = true := by
        cases hx : rest.all ScanItem.isText
        · rw [hx] at h
          simp at h
        · rfl
      show (match rewriteSegments ctx rest fm with
            | .ok r => Except.ok (s ++ r)
            | .error e => .error e) = _
      rw [ih fm h2]
      rfl
    | directive m =>
      rw [List.all_cons] at h
      simp [ScanItem.isText] at h

/-- Claim C6 (amended): a scanned source file that contains no dependency directive
has its contents left unchanged, but the file is still re-emitted into the
Change Ledger: `recordChanges` is invoked unconditionally with the
destination path and the original contents (so, ledger permitting, an entry
for the destination path is recorded). -/
theorem processSrcFile_no_directive_reemits (ctx : ImportCtx) (changes : Changes)
    (scriptsPath : String) (items : List ScanItem)
    (h : items.all ScanItem.isText = true) :
    (processSrcFile ctx changes scriptsPath items =
      match recordChanges changes (scriptsPath ++ "/" ++ ctx.fileName) (concatTexts items) with
      | .error msg => .error (.inr msg)
      | .ok ch => .ok ch)
    ∧ (lookupKey changes (scriptsPath ++ "/" ++ ctx.fileName) = none →
        processSrcFile ctx changes scriptsPath items =
          .ok (changes ++ [(scriptsPath ++ "/" ++ ctx.fileName, concatTexts items)])) := by
  have hmain : processSrcFile ctx changes scriptsPath items =
      match recordChanges changes (scriptsPath ++ "/" ++ ctx.fileName) (concatTexts items) with
      | .error msg => .error (.inr msg)
      | .ok ch => .ok ch := by
    unfold processSrcFile
    rw [rewriteSegments_all_text ctx items true h]
  refine ⟨hmain, fun hfresh => ?_⟩
  rw [hmain]
  unfold recordChanges
  rw [hfresh]
  rfl

/-- Claim C6 counterexample to the claim as stated: a file whose scan found no
directive is nevertheless recorded into the Change Ledger at its destination
path (with its original contents). -/
theorem processSrcFile_no_directive_records_counterexample :
    [ScanItem.text "const x = 1;\n"].all ScanItem.isText = true
    ∧ processSrcFile
        { schema := [], fsExists := fun _ => false, extract := fun _ _ _ _ => none,
          readF := fun _ => "", scriptType := ScriptType.ts, fileName := "file.ts",
          srcFilePath := "../toolkit/a/t/ts/src/file.ts" }
        [] "../toolkit/a/t/ts" [ScanItem.text "const x = 1;\n"]
        = .ok [("../toolkit/a/t/ts/file.ts", "const x = 1;\n")]
    ∧ lookupKey [("../toolkit/a/t/ts/file.ts", "const x = 1;\n")] "../toolkit/a/t/ts/file.ts"
        = some "const x = 1;\n" := by
  exact ⟨rfl, rfl, rfl⟩

/-- Claim C6 witness for the amended statement, at a concrete no-directive file. -/
theorem processSrcFile_no_directive_reemits_witness :
    processSrcFile
      { schema := [], fsExists := fun _ => false, extract := fun _ _ _ _ => none,
        readF := fun _ => "", scriptType := ScriptType.ts, fileName := "file.ts",
        srcFilePath := "../toolkit/a/t/ts/src/file.ts" }
      [] "../toolkit/a/t/ts" [ScanItem.text "let y = 2;\n"]
      = .ok [("../toolkit/a/t/ts/file.ts", "let y = 2;\n")] := by
  have hthm := (processSrcFile_no_directive_reemits
    { schema := [], fsExists := fun _ => false, extract := fun _ _ _ _ => none,
      readF := fun _ => "", scriptType := ScriptType.ts, fileName := "file.ts",
      srcFilePath := "../toolkit/a/t/ts/src/file.ts" }
    [] "../toolkit/a/t/ts" [ScanItem.text "let y = 2;\n"] rfl).2 rfl
  exact hthm.trans rfl

/-- When the dotted path of a directive resolves to a non-`global` export, the
directive is processed by resolving the dependency source file and then
extracting and formatting the declaration. -/
theorem replaceDirective_resolves (ctx : ImportCtx) (firstMatch : Bool)
    (m : DirectiveMatch) (seg0 seg1 seg2 : String)
    (depNamespace : ToolkitNamespace) (depTool : ToolkitTool) (depExport : ToolkitExport)
    (hsegs : splitOnChar '.' m.dependency = [seg0, seg1, seg2])
    (hns : lookupKey ctx.schema seg0 = some depNamespace)
    (htool : lookupKey (depNamespace.tools.getD []) seg1 = some depTool)
    (hexp : lookupKey depTool.exports seg2 = some depExport)
    (hglobal : depExport.type ≠ ToolkitExportType.GLOBAL) :
    replaceDirective ctx firstMatch m =
      match resolveDepToolFilePath ctx.fsExists ctx.scriptType ctx.fileName
          m.depTag.depType seg0 seg1 seg2
          { fileName := some ctx.fileName, filePath := some ctx.srcFilePath,
            dependency := some m.dependency, importMethod := some m.depTag.depType } with
      | .error e => .error e
      | .ok depToolFilePath =>
        extractAndFormat ctx firstMatch m.indent m.depTag depExport.type seg0 seg1 seg2
          { fileName := some ctx.fileName, filePath := some ctx.srcFilePath,
            dependency := some m.dependency, importMethod := some m.depTag.depType }
          depToolFilePath := by
  simp only [replaceDirective]
  rw [hsegs]
  simp only [hns, htool, hexp]
  rw [if_neg hglobal]

/-- Claim C3: a directive whose dotted path resolves to an existing export of kind
`global` fails with the non-importability `DependencyImportError`, for every
dialect, import mode and `firstMatch` state, and independently of the
filesystem, extraction and file-reading oracles (so neither candidate-file
resolution nor extraction is ever attempted). -/
theorem replaceDirective_global_not_importable (ctx : ImportCtx) (firstMatch : Bool)
    (m : DirectiveMatch) (seg0 seg1 seg2 : String)
    (depNamespace : ToolkitNamespace) (depTool : ToolkitTool) (depExport : ToolkitExport)
    (hsegs : splitOnChar '.' m.dependency = [seg0, seg1, seg2])
    (hns : lookupKey ctx.schema seg0 = some depNamespace)
    (htool : lookupKey (depNamespace.tools.getD []) seg1 = some depTool)
    (hexp : lookupKey depTool.exports seg2 = some depExport)
    (hglobal : depExport.type = ToolkitExportType.GLOBAL) :
    ∀ (fsExists2 : DirOracle)
      (extract2 : ToolkitExportType → ScriptType → String → String → Option String)
      (readF2 : String → String),
      replaceDirective
          { ctx with fsExists := fsExists2, extract := extract2, readF := readF2 }
          firstMatch m
        = .error (DependencyImportError.construct
            (some s!"Cannot import '{seg2}' from Tool '{seg1}' in Namespace '{seg0}' as a {m.depTag.depType.val} Dependency in {ctx.fileName}: '{seg2}' is a global that should not need to be imported.")
            { fileName := some ctx.fileName, filePath := some ctx.srcFilePath,
              dependency := some m.dependency, importMethod := some m.depTag.depType,
              dependencyNamespace := some seg0, dependencyTool := some seg1,
              dependencyExport := some seg2 }) := by
  intro fsExists2 extract2 readF2
  obtain ⟨sch, fsE, ext, rf, st, fn, sfp⟩ := ctx
  simp only at hns htool hexp ⊢
  simp only [replaceDirective]
  rw [hsegs]
  simp only [hns, htool, hexp, hglobal]
  rfl

/-- Claim C3 witness: a concrete `global`-kind export is rejected. -/
theorem replaceDirective_global_not_importable_witness :
    replaceDirective
      { schema := [("types", { tools := some [("g",
          { exports := [("gg", { type := ToolkitExportType.GLOBAL })],
            dependencies := none })] })],
        fsExists := fun _ => true, extract := fun _ _ _ _ => some "X",
        readF := fun _ => "", scriptType := ScriptType.ts, fileName := "a.ts",
        srcFilePath := "../toolkit/app/main/ts/src/a.ts" }
      true { indent := "  ", depTag := DepTag.bundle, dependency := "types.g.gg" }
      = .error (DependencyImportError.construct
          (some "Cannot import 'gg' from Tool 'g' in Namespace 'types' as a Bundled Dependency in a.ts: 'gg' is a global that should not need to be imported.")
          { fileName := some "a.ts", filePath := some "../toolkit/app/main/ts/src/a.ts",
            dependency := some "types.g.gg",
            importMethod := some DependencyImportMethod.BUNDLED,
            dependencyNamespace := some "types", dependencyTool := some "g",
            dependencyExport := some "gg" }) := by
  have hthm := replaceDirective_global_not_importable
    { schema := [("types", { tools := some [("g",
        { exports := [("gg", { type := ToolkitExportType.GLOBAL })],
          dependencies := none })] })],
      fsExists := fun _ => true, extract := fun _ _ _ _ => some "X",
      readF := fun _ => "", scriptType := ScriptType.ts, fileName := "a.ts",
      srcFilePath := "../toolkit/app/main/ts/src/a.ts" }
    true { indent := "  ", depTag := DepTag.bundle, dependency := "types.g.gg" }
    "types" "g" "gg" _ _ _ rfl rfl rfl rfl rfl
    (fun _ => true) (fun _ _ _ _ => some "X") (fun _ => "")
  exact hthm.trans rfl

/-- When the dotted path of a directive resolves to a non-`global` export,
the dialect directory exists, and the probe of the three candidate paths
finds a first existing file `f`, processing continues by extracting from and
formatting with `f`. -/
theorem replaceDirective_chosen_candidate (ctx : ImportCtx)
    (firstMatch : Bool) (m : DirectiveMatch) (seg0 seg1 seg2 : String)
    (depNamespace : ToolkitNamespace) (depTool : ToolkitTool) (depExport : ToolkitExport)
    (f : String)
    (hsegs : splitOnChar '.' m.dependency = [seg0, seg1, seg2])
    (hns : lookupKey ctx.schema seg0 = some depNamespace)
    (htool : lookupKey (depNamespace.tools.getD []) seg1 = some depTool)
    (hexp : lookupKey depTool.exports seg2 = some depExport)
    (hglobal : depExport.type ≠ ToolkitExportType.GLOBAL)
    (hdir : ctx.fsExists (TOOLKIT_PATH ++ "/" ++ seg0 ++ "/" ++ seg1 ++ "/" ++ ctx.scriptType.ext) = true)
    (hfind : List.find? ctx.fsExists
        [TOOLKIT_PATH ++ "/" ++ seg0 ++ "/" ++ seg1 ++ "/" ++ ctx.scriptType.ext ++ "/" ++ ctx.fileName,
         TOOLKIT_PATH ++ "/" ++ seg0 ++ "/" ++ seg1 ++ "/" ++ ctx.scriptType.ext ++ "/" ++ (jsToLower m.depTag.depType.val ++ "-deps." ++ ctx.scriptType.ext),
         TOOLKIT_PATH ++ "/" ++ seg0 ++ "/" ++ seg1 ++ "/" ++ ctx.scriptType.ext ++ "/" ++ ("index." ++ ctx.scriptType.ext)] = some f) :
    replaceDirective ctx firstMatch m
      = extractAndFormat ctx firstMatch m.indent m.depTag depExport.type seg0 seg1 seg2
          { fileName := some ctx.fileName, filePath := some ctx.srcFilePath,
            dependency := some m.dependency, importMethod := some m.depTag.depType } f := by
  have hres := replaceDirective_resolves ctx firstMatch m seg0 seg1 seg2
    depNamespace depTool depExport hsegs hns htool hexp hglobal
  rw [hres]
  unfold resolveDepToolFilePath
  simp only [List.map_cons, List.map_nil, hdir, hfind]
  rfl

/-- Claim C4: for a resolved, non-`global` dependency the source file is chosen by
probing exactly three candidates in order — the same-named file, the
mode-named aggregate file (`bundled-deps`/`inlined-deps` with the dialect
extension), and the dialect `index` entry file — taking the first that
exists; a missing dialect directory, or no existing candidate, raises a
`DependencyImportError`, and otherwise processing continues with the chosen
file. -/
theorem replaceDirective_candidate_file_resolution (ctx : ImportCtx)
    (firstMatch : Bool) (m : DirectiveMatch) (seg0 seg1 seg2 : String)
    (depNamespace : ToolkitNamespace) (depTool : ToolkitTool) (depExport : ToolkitExport)
    (hsegs : splitOnChar '.' m.dependency = [seg0, seg1, seg2])
    (hns : lookupKey ctx.schema seg0 = some depNamespace)
    (htool : lookupKey (depNamespace.tools.getD []) seg1 = some depTool)
    (hexp : lookupKey depTool.exports seg2 = some depExport)
    (hglobal : depExport.type ≠ ToolkitExportType.GLOBAL) :
    (ctx.fsExists (TOOLKIT_PATH ++ "/" ++ seg0 ++ "/" ++ seg1 ++ "/" ++ ctx.scriptType.ext) = false →
      replaceDirective ctx firstMatch m
        = .error (DependencyImportError.construct
            (some ("Failed to import '" ++ seg2 ++ "' from Tool '" ++ seg1
              ++ "' in Namespace '" ++ seg0 ++ "' as a " ++ m.depTag.depType.val
              ++ " Dependency in " ++ ctx.fileName ++ ": "
              ++ (TOOLKIT_PATH ++ "/" ++ seg0 ++ "/" ++ seg1 ++ "/" ++ ctx.scriptType.ext)
              ++ " could not be found."))
            { fileName := some ctx.fileName, filePath := some ctx.srcFilePath,
              dependency := some m.dependency, importMethod := some m.depTag.depType,
              dependencyNamespace := some seg0, dependencyTool := some seg1,
              dependencyExport := some seg2 }))
    ∧ (ctx.fsExists (TOOLKIT_PATH ++ "/" ++ seg0 ++ "/" ++ seg1 ++ "/" ++ ctx.scriptType.ext) = true →
       (List.find? ctx.fsExists
         [TOOLKIT_PATH ++ "/" ++ seg0 ++ "/" ++ seg1 ++ "/" ++ ctx.scriptType.ext ++ "/" ++ ctx.fileName,
          TOOLKIT_PATH ++ "/" ++ seg0 ++ "/" ++ seg1 ++ "/" ++ ctx.scriptType.ext ++ "/" ++ (jsToLower m.depTag.depType.val ++ "-deps." ++ ctx.scriptType.ext),
          TOOLKIT_PATH ++ "/" ++ seg0 ++ "/" ++ seg1 ++ "/" ++ ctx.scriptType.ext ++ "/" ++ ("index." ++ ctx.scriptType.ext)]) = none →
      replaceDirective ctx firstMatch m
        = .error (DependencyImportError.construct
            (some ("Failed to import '" ++ seg2 ++ "' from Tool '" ++ seg1
              ++ "' in Namespace '" ++ seg0 ++ "' as a " ++ m.depTag.depType.val
              ++ " Dependency in " ++ ctx.fileName
              ++ ": A suitable source code file could not be found."))
            { fileName := some ctx.fileName, filePath := some ctx.srcFilePath,
              dependency := some m.dependency, importMethod := some m.depTag.depType,
              dependencyNamespace := some seg0, dependencyTool := some seg1,
              dependencyExport := some seg2 }))
    ∧ (∀ f, ctx.fsExists (TOOLKIT_PATH ++ "/" ++ seg0 ++ "/" ++ seg1 ++ "/" ++ ctx.scriptType.ext) = true →
       (List.find? ctx.fsExists
         [TOOLKIT_PATH ++ "/" ++ seg0 ++ "/" ++ seg1 ++ "/" ++ ctx.scriptType.ext ++ "/" ++ ctx.fileName,
          TOOLKIT_PATH ++ "/" ++ seg0 ++ "/" ++ seg1 ++ "/" ++ ctx.scriptType.ext ++ "/" ++ (jsToLower m.depTag.depType.val ++ "-deps." ++ ctx.scriptType.ext),
          TOOLKIT_PATH ++ "/" ++ seg0 ++ "/" ++ seg1 ++ "/" ++ ctx.scriptType.ext ++ "/" ++ ("index." ++ ctx.scriptType.ext)]) = some f →
      replaceDirective ctx firstMatch m
        = extractAndFormat ctx firstMatch m.indent m.depTag depExport.type seg0 seg1 seg2
            { fileName := some ctx.fileName, filePath := some ctx.srcFilePath,
              dependency := some m.dependency, importMethod := some m.depTag.depType } f) := by
  have hres := replaceDirective_resolves ctx firstMatch m seg0 seg1 seg2
    depNamespace depTool depExport hsegs hns htool hexp hglobal
  refine ⟨fun hdir => ?_, fun hdir hfind => ?_, fun f hdir hfind => ?_⟩
  · rw [hres]
    unfold resolveDepToolFilePath
    simp only [List.map_cons, List.map_nil, hdir]
    rfl
  · rw [hres]
    unfold resolveDepToolFilePath
    simp only [List.map_cons, List.map_nil, hdir, hfind]
    rfl
  · exact replaceDirective_chosen_candidate ctx firstMatch m seg0 seg1 seg2
      depNamespace depTool depExport f hsegs hns htool hexp hglobal hdir hfind

/-- Claim C4 witness: with only the mode-named aggregate file existing, the second
candidate is chosen (the same-named file is probed first but does not exist);
with the dialect directory missing, resolution fails. -/
theorem replaceDirective_candidate_file_resolution_witness :
    replaceDirective
      { schema := [("core", { tools := some [("util",
          { exports := [("helper", { type := ToolkitExportType.FUNCTION })],
            dependencies := none })] })],
        fsExists := fun p => p == "../toolkit/core/util/ts"
          || p == "../toolkit/core/util/ts/bundled-deps.ts",
        extract := fun _ _ _ contents => some contents,
        readF := fun p => p, scriptType := ScriptType.ts, fileName := "file.ts",
        srcFilePath := "src/file.ts" }
      true { indent := "", depTag := DepTag.bundle, dependency := "core.util.helper" }
      = .ok ("../toolkit/core/util/ts/bundled-deps.ts", false)
    ∧ replaceDirective
      { schema := [("core", { tools := some [("util",
          { exports := [("helper", { type := ToolkitExportType.FUNCTION })],
            dependencies := none })] })],
        fsExists := fun _ => false,
        extract := fun _ _ _ contents => some contents,
        readF := fun p => p, scriptType := ScriptType.ts, fileName := "file.ts",
        srcFilePath := "src/file.ts" }
      true { indent := "", depTag := DepTag.bundle, dependency := "core.util.helper" }
      = .error (DependencyImportError.construct
          (some "Failed to import 'helper' from Tool 'util' in Namespace 'core' as a Bundled Dependency in file.ts: ../toolkit/core/util/ts could not be found.")
          { fileName := some "file.ts", filePath := some "src/file.ts",
            dependency := some "core.util.helper",
            importMethod := some DependencyImportMethod.BUNDLED,
            dependencyNamespace := some "core", dependencyTool := some "util",
            dependencyExport := some "helper" }) := by
  constructor
  · have hthm := (replaceDirective_candidate_file_resolution
      { schema := [("core", { tools := some [("util",
          { exports := [("helper", { type := ToolkitExportType.FUNCTION })],
            dependencies := none })] })],
        fsExists := fun p => p == "../toolkit/core/util/ts"
          || p == "../toolkit/core/util/ts/bundled-deps.ts",
        extract := fun _ _ _ contents => some contents,
        readF := fun p => p, scriptType := ScriptType.ts, fileName := "file.ts",
        srcFilePath := "src/file.ts" }
      true { indent := "", depTag := DepTag.bundle, dependency := "core.util.helper" }
      "core" "util" "helper" _ _ _ rfl rfl rfl rfl (by decide)).2.2
      "../toolkit/core/util/ts/bundled-deps.ts" rfl rfl
    exact hthm.trans rfl
  · have hthm := (replaceDirective_candidate_file_resolution
      { schema := [("core", { tools := some [("util",
          { exports := [("helper", { type := ToolkitExportType.FUNCTION })],
            dependencies := none })] })],
        fsExists := fun _ => false,
        extract := fun _ _ _ contents => some contents,
        readF := fun p => p, scriptType := ScriptType.ts, fileName := "file.ts",
        srcFilePath := "src/file.ts" }
      true { indent := "", depTag := DepTag.bundle, dependency := "core.util.helper" }
      "core" "util" "helper" _ _ _ rfl rfl rfl rfl (by decide)).1 rfl
    exact hthm.trans rfl

/-- Splitting never yields an empty list of pieces. -/
theorem splitChars_ne_nil (sep : Char) (s : List Char) : splitChars sep s ≠ [] := by
  cases s with
  | nil => simp [splitChars]
  | cons c rest =>
    simp only [splitChars]
    by_cases h : c = sep
    · simp [h]
    · simp only [if_neg h]
      cases hx : splitChars sep rest <;> simp

/-- Prepending separator-free characters extends the first piece of a split. -/
theorem splitChars_append_nosep (sep : Char) (ind rest : List Char) (h : sep ∉ ind) :
    splitChars sep (ind ++ rest) =
      match splitChars sep rest with
      | l :: ls => (ind ++ l) :: ls
      | [] => [ind] := by
  induction ind with
  | nil =>
    simp only [List.nil_append]
    cases hx : splitChars sep rest with
    | nil => exact absurd hx (splitChars_ne_nil sep rest)
    | cons l ls => simp
  | cons c ind2 ih =>
    have hc : ¬ c = sep := fun hcc => h (by rw [hcc]; exact List.mem_cons_self sep ind2)
    have h2 : sep ∉ ind2 := fun hm => h (List.mem_cons_of_mem c hm)
    rw [List.cons_append]
    simp only [splitChars, if_neg hc]
    rw [ih h2]
    cases hx : splitChars sep rest with
    | nil => exact absurd hx (splitChars_ne_nil sep rest)
    | cons l ls => simp

/-- The line structure of `indentAux`: starting at a line start, every
non-empty line receives the indentation prefix; starting mid-line, the first
line is left alone. -/
theorem splitChars_indentAux (ind : List Char) (hind : ('\n' : Char) ∉ ind)
    (s : List Char) :
    (splitChars '\n' (indentAux ind true s)
      = (splitChars '\n' s).map (fun l => if l = [] then l else ind ++ l))
    ∧ (∀ l ls, splitChars '\n' s = l :: ls →
        splitChars '\n' (indentAux ind false s)
          = l :: ls.map (fun l => if l = [] then l else ind ++ l)) := by
  induction s with
  | nil =>
    constructor
    · simp [indentAux, splitChars]
    · intro l ls h
      simp only [splitChars] at h
      injection h with h1 h2
      subst h1
      subst h2
      simp [indentAux, splitChars]
  | cons c rest ih =>
    obtain ⟨ihA, ihB⟩ := ih
    by_cases hc : c = '\n'
    · subst hc
      have hA : splitChars '\n' (indentAux ind true ('\n' :: rest))
          = [] :: (splitChars '\n' rest).map (fun l => if l = [] then l else ind ++ l) := by
        show splitChars '\n' (if ('\n' : Char) = '\n' then '\n' :: indentAux ind true rest
          else ind ++ ('\n' :: indentAux ind false rest)) = _
        rw [if_pos rfl]
        show [] :: splitChars '\n' (indentAux ind true rest) = _
        rw [ihA]
      constructor
      · rw [hA]
        show _ = (([] : List Char) :: splitChars '\n' rest).map _
        simp
      · intro l ls h
        have hsplit : splitChars '\n' ('\n' :: rest) = [] :: splitChars '\n' rest := by
          show (if ('\n' : Char) = '\n' then [] :: splitChars '\n' rest else _) = _
          rw [if_pos rfl]
        rw [hsplit] at h
        injection h with h1 h2
        subst h1
        subst h2
        show splitChars '\n' (if ('\n' : Char) = '\n' then '\n' :: indentAux ind true rest
          else '\n' :: indentAux ind false rest) = _
        rw [if_pos rfl]
        show [] :: splitChars '\n' (indentAux ind true rest) = _
        rw [ihA]
    · obtain ⟨l0, ls0, hrest⟩ : ∃ l0 ls0, splitChars '\n' rest = l0 :: ls0 := by
        cases hx : splitChars '\n' rest with
        | nil => exact absurd hx (splitChars_ne_nil _ rest)
        | cons a b => exact ⟨a, b, rfl⟩
      have hsplit : splitChars '\n' (c :: rest) = (c :: l0) :: ls0 := by
        show (if c = '\n' then [] :: splitChars '\n' rest
          else match splitChars '\n' rest with
               | l :: ls => (c :: l) :: ls
               | [] => [[c]]) = _
        rw [if_neg hc, hrest]
      have hF : splitChars '\n' (indentAux ind false rest)
          = l0 :: ls0.map (fun l => if l = [] then l else ind ++ l) := ihB l0 ls0 hrest
      have hX : splitChars '\n' (c :: indentAux ind false rest)
          = (c :: l0) :: ls0.map (fun l => if l = [] then l else ind ++ l) := by
        show (if c = '\n' then [] :: splitChars '\n' (indentAux ind false rest)
          else match splitChars '\n' (indentAux ind false rest) with
               | l :: ls => (c :: l) :: ls
               | [] => [[c]]) = _
        rw [if_neg hc, hF]
      constructor
      · have h1 : indentAux ind true (c :: rest) = ind ++ (c :: indentAux ind false rest) := by
          simp only [indentAux]
          rw [if_neg hc]
        rw [h1, splitChars_append_nosep '\n' ind _ hind, hX, hsplit]
        simp
      · intro l ls h
        rw [hsplit] at h
        injection h with h1 h2
        subst h1
        subst h2
        have h2 : indentAux ind false (c :: rest) = c :: indentAux ind false rest := by
          simp only [indentAux]
          rw [if_neg hc]
        rw [h2, hX]

/-- Line-wise specification of the re-indentation: every non-blank line of
the re-indented text is the indentation followed by the original line, and
blank lines are left bare. -/
theorem linesOf_indentNonEmptyLines (ind text : String)
    (hind : ('\n' : Char) ∉ ind.data) :
    linesOf (indentNonEmptyLines ind text)
      = (linesOf text).map (fun l => if l = "" then l else ind ++ l) := by
  unfold linesOf indentNonEmptyLines
  rw [show (String.mk (indentAux ind.data true text.data)).data
      = indentAux ind.data true text.data from rfl]
  rw [(splitChars_indentAux ind.data hind text.data).1]
  rw [List.map_map, List.map_map]
  apply List.map_congr_left
  intro cs _
  by_cases h : cs = []
  · subst h
    rfl
  · have h2 : ¬ (String.mk cs = "") := by
      intro hx
      exact h (by simpa using congrArg String.data hx)
    simp only [Function.comp_apply]
    rw [if_neg h, if_neg h2]
    rfl

/-- Claim C5: for a successfully resolved directive, the replacement is the
extracted text re-indented to the captured indentation (every non-blank line
receives the prefix, blank lines stay bare — the second conjunct), preceded
in `bundle` mode by one blank separator line exactly when the match is not
the first replaced in the file, and in `inline` mode by the fixed marker
comment at the captured indentation, with no first-match distinction; the
`firstMatch` flag is cleared afterwards. -/
theorem replaceDirective_replacement_formatting (ctx : ImportCtx)
    (firstMatch : Bool) (m : DirectiveMatch) (seg0 seg1 seg2 : String)
    (depNamespace : ToolkitNamespace) (depTool : ToolkitTool) (depExport : ToolkitExport)
    (f text : String)
    (hsegs : splitOnChar '.' m.dependency = [seg0, seg1, seg2])
    (hns : lookupKey ctx.schema seg0 = some depNamespace)
    (htool : lookupKey (depNamespace.tools.getD []) seg1 = some depTool)
    (hexp : lookupKey depTool.exports seg2 = some depExport)
    (hglobal : depExport.type ≠ ToolkitExportType.GLOBAL)
    (hdir : ctx.fsExists (TOOLKIT_PATH ++ "/" ++ seg0 ++ "/" ++ seg1 ++ "/" ++ ctx.scriptType.ext) = true)
    (hfind : List.find? ctx.fsExists
        [TOOLKIT_PATH ++ "/" ++ seg0 ++ "/" ++ seg1 ++ "/" ++ ctx.scriptType.ext ++ "/" ++ ctx.fileName,
         TOOLKIT_PATH ++ "/" ++ seg0 ++ "/" ++ seg1 ++ "/" ++ ctx.scriptType.ext ++ "/" ++ (jsToLower m.depTag.depType.val ++ "-deps." ++ ctx.scriptType.ext),
         TOOLKIT_PATH ++ "/" ++ seg0 ++ "/" ++ seg1 ++ "/" ++ ctx.scriptType.ext ++ "/" ++ ("index." ++ ctx.scriptType.ext)] = some f)
    (hext : ctx.extract depExport.type ctx.scriptType seg2 (ctx.readF f) = some text)
    (hind : ('\n' : Char) ∉ m.indent.data) :
    replaceDirective ctx firstMatch m
      = .ok ((if m.depTag.depType = DependencyImportMethod.BUNDLED then
                (if !firstMatch then "\n" else "")
              else m.indent ++ "// Inlined TypeScript Toolkit Dependency\n")
             ++ indentNonEmptyLines m.indent text, false)
    ∧ linesOf (indentNonEmptyLines m.indent text)
        = (linesOf text).map (fun l => if l = "" then l else m.indent ++ l) := by
  constructor
  · have h3 := replaceDirective_chosen_candidate ctx firstMatch m seg0 seg1 seg2
      depNamespace depTool depExport f hsegs hns htool hexp hglobal hdir hfind
    rw [h3]
    simp only [extractAndFormat]
    rw [hext]
  · exact linesOf_indentNonEmptyLines m.indent text hind

/-- Claim C5 witness: concrete bundle-first, bundle-later and inline replacements
of an extracted two-line declaration with a blank middle line, and the
line-wise re-indentation at that text. -/
theorem replaceDirective_replacement_formatting_witness :
    replaceDirective
      { schema := [("core", { tools := some [("util",
          { exports := [("helper", { type := ToolkitExportType.FUNCTION })],
            dependencies := none })] })],
        fsExists := fun _ => true,
        extract := fun _ _ _ _ => some "line1\n\nline2",
        readF := fun _ => "", scriptType := ScriptType.ts, fileName := "file.ts",
        srcFilePath := "src/file.ts" }
      true { indent := "  ", depTag := DepTag.bundle, dependency := "core.util.helper" }
      = .ok ("  line1\n\n  line2", false)
    ∧ replaceDirective
      { schema := [("core", { tools := some [("util",
          { exports := [("helper", { type := ToolkitExportType.FUNCTION })],
            dependencies := none })] })],
        fsExists := fun _ => true,
        extract := fun _ _ _ _ => some "line1\n\nline2",
        readF := fun _ => "", scriptType := ScriptType.ts, fileName := "file.ts",
        srcFilePath := "src/file.ts" }
      false { indent := "  ", depTag := DepTag.bundle, dependency := "core.util.helper" }
      = .ok ("\n  line1\n\n  line2", false)
    ∧ replaceDirective
      { schema := [("core", { tools := some [("util",
          { exports := [("helper", { type := ToolkitExportType.FUNCTION })],
            dependencies := none })] })],
        fsExists := fun _ => true,
        extract := fun _ _ _ _ => some "line1\n\nline2",
        readF := fun _ => "", scriptType := ScriptType.ts, fileName := "file.ts",
        srcFilePath := "src/file.ts" }
      true { indent := "  ", depTag := DepTag.inlineTag, dependency := "core.util.helper" }
      = .ok ("  // Inlined TypeScript Toolkit Dependency\n  line1\n\n  line2", false)
    ∧ linesOf (indentNonEmptyLines "  " "line1\n\nline2") = ["  line1", "", "  line2"] := by
  refine ⟨?_, ?_, ?_, ?_⟩
  · have hthm := (replaceDirective_replacement_formatting
      { schema := [("core", { tools := some [("util",
          { exports := [("helper", { type := ToolkitExportType.FUNCTION })],
            dependencies := none })] })],
        fsExists := fun _ => true,
        extract := fun _ _ _ _ => some "line1\n\nline2",
        readF := fun _ => "", scriptType := ScriptType.ts, fileName := "file.ts",
        srcFilePath := "src/file.ts" }
      true { indent := "  ", depTag := DepTag.bundle, dependency := "core.util.helper" }
      "core" "util" "helper" _ _ _ "../toolkit/core/util/ts/file.ts" "line1\n\nline2"
      rfl rfl rfl rfl (by decide) rfl rfl rfl (by decide)).1
    exact hthm.trans rfl
  · have hthm := (replaceDirective_replacement_formatting
      { schema := [("core", { tools := some [("util",
          { exports := [("helper", { type := ToolkitExportType.FUNCTION })],
            dependencies := none })] })],
        fsExists := fun _ => true,
        extract := fun _ _ _ _ => some "line1\n\nline2",
        readF := fun _ => "", scriptType := ScriptType.ts, fileName := "file.ts",
        srcFilePath := "src/file.ts" }
      false { indent := "  ", depTag := DepTag.bundle, dependency := "core.util.helper" }
      "core" "util" "helper" _ _ _ "../toolkit/core/util/ts/file.ts" "line1\n\nline2"
      rfl rfl rfl rfl (by decide) rfl rfl rfl (by decide)).1
    exact hthm.trans rfl
  · have hthm := (replaceDirective_replacement_formatting
      { schema := [("core", { tools := some [("util",
          { exports := [("helper", { type := ToolkitExportType.FUNCTION })],
            dependencies := none })] })],
        fsExists := fun _ => true,
        extract := fun _ _ _ _ => some "line1\n\nline2",
        readF := fun _ => "", scriptType := ScriptType.ts, fileName := "file.ts",
        srcFilePath := "src/file.ts" }
      true { indent := "  ", depTag := DepTag.inlineTag, dependency := "core.util.helper" }
      "core" "util" "helper" _ _ _ "../toolkit/core/util/ts/file.ts" "line1\n\nline2"
      rfl rfl rfl rfl (by decide) rfl rfl rfl (by decide)).1
    exact hthm.trans rfl
  · have hthm := (replaceDirective_replacement_formatting
      { schema := [("core", { tools := some [("util",
          { exports := [("helper", { type := ToolkitExportType.FUNCTION })],
            dependencies := none })] })],
        fsExists := fun _ => true,
        extract := fun _ _ _ _ => some "line1\n\nline2",
        readF := fun _ => "", scriptType := ScriptType.ts, fileName := "file.ts",
        srcFilePath := "src/file.ts" }
      true { indent := "  ", depTag := DepTag.bundle, dependency := "core.util.helper" }
      "core" "util" "helper" _ _ _ "../toolkit/core/util/ts/file.ts" "line1\n\nline2"
      rfl rfl rfl rfl (by decide) rfl rfl rfl (by decide)).2
    exact hthm.trans rfl

/-- Fail-fast sequencing past a successful prefix of checks. -/
theorem seqChecks_append_ok (l1 l2 : List (Except SchemaValidationError Unit × List String))
    (ps : List String) (h : seqChecks l1 = (.ok (), ps)) :
    seqChecks (l1 ++ l2) = ((seqChecks l2).1, ps ++ (seqChecks l2).2) := by
  induction l1 generalizing ps with
  | nil =>
    simp only [seqChecks] at h
    have hps : ps = [] := by
      have := congrArg Prod.snd h
      exact this.symm
    subst hps
    simp
  | cons p rest ih =>
    obtain ⟨r, ps0⟩ := p
    cases r with
    | error e =>
      simp only [seqChecks] at h
      exact absurd (congrArg Prod.fst h) (by simp)
    | ok u =>
      cases u
      rcases hrest : seqChecks rest with ⟨r2, ps2⟩
      simp only [seqChecks, hrest] at h
      have hr2 : r2 = .ok () := by
        have := congrArg Prod.fst h
        simpa using this
      have hps : ps0 ++ ps2 = ps := by
        have := congrArg Prod.snd h
        simpa using this
      subst hr2
      rw [List.cons_append]
      simp only [seqChecks]
      rw [ih ps2 hrest]
      rw [← hps, List.append_assoc]

/-- Fail-fast sequencing: an error in a prefix of checks determines the
whole run, and the checks after it contribute nothing (in particular, none
of their directory probes happen). -/
theorem seqChecks_append_error (l1 l2 : List (Except SchemaValidationError Unit × List String))
    (e : SchemaValidationError) (ps : List String)
    (h : seqChecks l1 = (.error e, ps)) :
    seqChecks (l1 ++ l2) = (.error e, ps) := by
  induction l1 generalizing ps with
  | nil =>
    simp only [seqChecks] at h
    exact absurd (congrArg Prod.fst h) (by simp)
  | cons p rest ih =>
    obtain ⟨r, ps0⟩ := p
    cases r with
    | error e0 =>
      simp only [seqChecks] at h
      have he : e0 = e := by
        have := congrArg Prod.fst h
        simpa using this
      have hps : ps0 = ps := by
        have := congrArg Prod.snd h
        simpa using this
      subst he
      subst hps
      rw [List.cons_append]
      simp only [seqChecks]
    | ok u =>
      cases u
      rcases hrest : seqChecks rest with ⟨r2, ps2⟩
      simp only [seqChecks, hrest] at h
      have hr2 : r2 = .error e := by
        have := congrArg Prod.fst h
        simpa using this
      have hps : ps0 ++ ps2 = ps := by
        have := congrArg Prod.snd h
        simpa using this
      subst hr2
      rw [List.cons_append]
      simp only [seqChecks]
      rw [ih ps2 hrest]
      rw [hps]

/-- Both failure modes of a single dependency check are classified as schema
syntax errors (with the complementary directory flag) and name the dependent
namespace and tool. -/
theorem checkDependency_error_fields (schema : ToolkitSchema)
    (namespaceName toolName dep : String) (e : SchemaValidationError)
    (h : checkDependency schema namespaceName toolName dep = .error e) :
    e.schemaSyntaxError = some true ∧ e.directoryValidationError = some false
    ∧ e.namespaceName = some namespaceName ∧ e.tool = some toolName := by
  simp only [checkDependency] at h
  rcases hx : lookupKey schema (((splitOnChar '/' dep).take 2).headD "") with _ | ns
  · rw [hx] at h
    injection h with he
    subst he
    exact ⟨rfl, rfl, rfl, rfl⟩
  · simp only [hx] at h
    by_cases hs : (lookupKey (ns.tools.getD [])
        ((((splitOnChar '/' dep).take 2).get? 1).getD "undefined")).isSome = true
    · rw [if_pos hs] at h
      exact absurd h (by simp)
    · rw [if_neg hs] at h
      injection h with he
      subst he
      exact ⟨rfl, rfl, rfl, rfl⟩

/-- An error from the dependency-validation loop of a tool carries the
syntax-error classification and the dependent namespace and tool names. -/
theorem checkToolDependencies_error_fields (schema : ToolkitSchema)
    (namespaceName toolName : String) (deps : List String) (e : SchemaValidationError)
    (h : checkToolDependencies schema namespaceName toolName deps = .error e) :
    e.schemaSyntaxError = some true ∧ e.directoryValidationError = some false
    ∧ e.namespaceName = some namespaceName ∧ e.tool = some toolName := by
  induction deps with
  | nil => exact absurd h (by simp [checkToolDependencies])
  | cons d rest ih =>
    simp only [checkToolDependencies] at h
    rcases hx : checkDependency schema namespaceName toolName d with e2 | u
    · rw [hx] at h
      injection h with he
      subst he
      exact checkDependency_error_fields schema namespaceName toolName d e2 hx
    · rw [hx] at h
      exact ih h

/-- Claim C2: when validation reaches a tool whose dependency list fails (an
unknown namespace or unknown tool), `verifySchema` fails with that
syntax-classified error — naming the dependent namespace and tool, with the
complementary directory flag — and the probe trace contains only the checks
made before that tool: the offending tool's own directory and every tool
iterated after it are never probed (fail-fast, not accumulate-all). -/
theorem verifySchema_bad_dependency_fail_fast (dirExists : DirOracle)
    (schema : ToolkitSchema)
    (pre post : List (String × ToolkitNamespace)) (nsName : String) (ns : ToolkitNamespace)
    (tsPre tsPost : List (String × ToolkitTool)) (toolName : String) (tool : ToolkitTool)
    (e : SchemaValidationError) (prePs tsPrePs : List String)
    (hschema : schema = pre ++ (nsName, ns) :: post)
    (htools : ns.tools = some (tsPre ++ (toolName, tool) :: tsPost))
    (hpre : seqChecks (pre.map (fun p => verifyNamespace dirExists schema p.1 p.2))
      = (.ok (), prePs))
    (hnsdir : dirExists (TOOLKIT_PATH ++ "/" ++ nsName) = true)
    (htsPre : seqChecks (tsPre.map (fun p => verifyTool dirExists schema nsName p.1 p.2))
      = (.ok (), tsPrePs))
    (hbad : checkToolDependencies schema nsName toolName (tool.dependencies.getD [])
      = .error e) :
    verifySchema dirExists schema
      = (.error e, prePs ++ (TOOLKIT_PATH ++ "/" ++ nsName) :: tsPrePs)
    ∧ e.schemaSyntaxError = some true
    ∧ e.directoryValidationError = some false
    ∧ e.namespaceName = some nsName
    ∧ e.tool = some toolName := by
  have hfields := checkToolDependencies_error_fields schema nsName toolName
    (tool.dependencies.getD []) e hbad
  refine ⟨?_, hfields.1, hfields.2.1, hfields.2.2.1, hfields.2.2.2⟩
  have htoolv : verifyTool dirExists schema nsName toolName tool = (.error e, []) := by
    unfold verifyTool
    rw [hbad]
  have htoolseq : seqChecks (((toolName, tool) :: tsPost).map
      (fun p => verifyTool dirExists schema nsName p.1 p.2)) = (.error e, []) := by
    rw [List.map_cons]
    show seqChecks (verifyTool dirExists schema nsName toolName tool :: _) = _
    rw [htoolv]
    simp only [seqChecks]
  have htoolsseq : seqChecks ((ns.tools.getD []).map
      (fun p => verifyTool dirExists schema nsName p.1 p.2)) = (.error e, tsPrePs) := by
    rw [htools]
    show seqChecks ((tsPre ++ (toolName, tool) :: tsPost).map
      (fun p => verifyTool dirExists schema nsName p.1 p.2)) = _
    rw [List.map_append, seqChecks_append_ok _ _ tsPrePs htsPre, htoolseq]
    simp
  have hnsv : verifyNamespace dirExists schema nsName ns
      = (.error e, (TOOLKIT_PATH ++ "/" ++ nsName) :: tsPrePs) := by
    simp only [verifyNamespace]
    rw [if_pos hnsdir, htoolsseq]
  have hseqtail : seqChecks (((nsName, ns) :: post).map
      (fun p => verifyNamespace dirExists schema p.1 p.2))
      = (.error e, (TOOLKIT_PATH ++ "/" ++ nsName) :: tsPrePs) := by
    rw [List.map_cons]
    show seqChecks (verifyNamespace dirExists schema nsName ns :: _) = _
    rw [hnsv]
    simp only [seqChecks]
  unfold verifySchema
  rw [hschema, List.map_append, seqChecks_append_ok _ _ prePs ?hp]
  case hp =>
    rw [← hschema]
    exact hpre
  rw [show ((nsName, ns) :: post).map
      (fun p => verifyNamespace dirExists (pre ++ (nsName, ns) :: post) p.1 p.2)
    = ((nsName, ns) :: post).map (fun p => verifyNamespace dirExists schema p.1 p.2)
    from by rw [hschema]]
  rw [hseqtail]

/-- Claim C2 witness: in a schema where tool `b/t` depends on the nonexistent tool
`a/missing` and a further tool `b/u` follows it, validation fails with the
syntax-classified error and probes only namespace `a`, tool `a/x` and
namespace `b` — neither `b/t` nor `b/u` is ever probed. -/
theorem verifySchema_bad_dependency_fail_fast_witness :
    verifySchema (fun _ => true)
      [("a", { tools := some [("x", { exports := [], dependencies := none })] }),
       ("b", { tools := some [("t", { exports := [], dependencies := some ["a/missing"] }),
                              ("u", { exports := [], dependencies := none })] })]
      = (.error { message := "The TypeScript Toolkit Schema Failed Validation: Unknown Tool 'missing' in Namespace 'a' specified as a Dependency for 'b/t'.",
                  namespaceName := some "b", tool := some "t",
                  schemaSyntaxError := some true, directoryValidationError := some false },
         ["../toolkit/a", "../toolkit/a/x", "../toolkit/b"])
    ∧ ({ message := "The TypeScript Toolkit Schema Failed Validation: Unknown Tool 'missing' in Namespace 'a' specified as a Dependency for 'b/t'.",
         namespaceName := some "b", tool := some "t",
         schemaSyntaxError := some true,
         directoryValidationError := some false } : SchemaValidationError).schemaSyntaxError
        = some true := by
  have hthm := verifySchema_bad_dependency_fail_fast (fun _ => true)
    [("a", { tools := some [("x", { exports := [], dependencies := none })] }),
     ("b", { tools := some [("t", { exports := [], dependencies := some ["a/missing"] }),
                            ("u", { exports := [], dependencies := none })] })]
    [("a", { tools := some [("x", { exports := [], dependencies := none })] })]
    [] "b"
    { tools := some [("t", { exports := [], dependencies := some ["a/missing"] }),
                     ("u", { exports := [], dependencies := none })] }
    [] [("u", { exports := [], dependencies := none })] "t"
    { exports := [], dependencies := some ["a/missing"] }
    { message := "The TypeScript Toolkit Schema Failed Validation: Unknown Tool 'missing' in Namespace 'a' specified as a Dependency for 'b/t'.",
      namespaceName := some "b", tool := some "t",
      schemaSyntaxError := some true, directoryValidationError := some false }
    ["../toolkit/a", "../toolkit/a/x"] []
    rfl rfl rfl rfl rfl rfl
  exact ⟨hthm.1.trans rfl, hthm.2.1⟩
